import Mathlib

/-!
Shallow embedding of `src/app/api/emails/route.ts` (the `GET` handler of the
`/api/emails` route) and proofs about it.

Modelling conventions:
* JavaScript thrown values are the inductive `Thrown`: an `Error` instance
  carries its `message` text; any other thrown value carries its `String(...)`
  conversion.
* `Number.parseInt` may return `NaN`; a JS number that may be `NaN` is
  `Option Int` (`none` = `NaN`).  `parseIntJs` models base-10 parsing
  (optional sign, longest digit run, leading blanks skipped).
* External collaborators (`getServerSession`, `fetchGmailMessages`,
  `getGmailMessage`, `analyzeEmail`) are parameters of the handler; fallible
  ones return `Except Thrown _`.  The analyzed-email and message-detail
  payloads are opaque type parameters.
* `NextResponse.json` bodies become the `Body` record of optional fields; the
  `timestamp` field (a wall-clock string) is outside the embedding and
  omitted.  The default HTTP status of `NextResponse.json` is 200.
* `console.log` / `console.error` calls are side effects with no influence on
  the returned value and are not modelled.
-/

/-- JS string equality check used for `s.includes(sub)`: does `needle` lead
the list `hay`? (char-by-char match of a candidate position). -/
def leadsWith : List Char → List Char → Bool
  | [], _ => true
  | _ :: _, [] => false
  | a :: as, b :: bs => a == b && leadsWith as bs

/-- Does `needle` occur as a contiguous run somewhere within `hay`? -/
def containsSub (needle : List Char) : List Char → Bool
  | [] => leadsWith needle []
  | c :: t => leadsWith needle (c :: t) || containsSub needle t

/-- Model of JavaScript `s.includes(sub)`. -/
def strIncludes (s sub : String) : Bool :=
  containsSub sub.data s.data

/-- Longest leading digit run of `cs`, accumulated into `acc` base 10. -/
def takeDigitsAcc : List Char → Nat → Nat
  | c :: rest, acc => if c.isDigit then takeDigitsAcc rest (acc * 10 + (c.toNat - 48)) else acc
  | [], acc => acc

/-- Value of the longest leading digit run, or `none` when there is none
(`Number.parseInt` yields `NaN` then). -/
def parseLeadingNat : List Char → Option Nat
  | c :: rest => if c.isDigit then some (takeDigitsAcc (c :: rest) 0) else none
  | [] => none

/-- Model of `Number.parseInt(s)` in base 10: skip leading blanks, optional
sign, longest digit run; `none` models `NaN`. -/
def parseIntJs (s : String) : Option Int :=
  match s.data.dropWhile (· == ' ') with
  | '-' :: rest => (parseLeadingNat rest).map (fun n => -(n : Int))
  | '+' :: rest => (parseLeadingNat rest).map (fun n => (n : Int))
  | cs => (parseLeadingNat cs).map (fun n => (n : Int))

/-- Model of `searchParams.get("maxResults") || "10"`: `null` and the empty
string are falsy in JS, any other string is truthy. -/
def jsOrDefault (p : Option String) (d : String) : String :=
  match p with
  | none => d
  | some s => if s = "" then d else s

/-- Model of `Math.min(a, b)` where `a` may be `NaN` (then the result is
`NaN`). -/
def jsMin (a : Option Int) (b : Int) : Option Int :=
  a.map (fun x => min x b)

/-- The effective limit the handler computes on line 38 of the route:
`Math.min(Number.parseInt(searchParams.get("maxResults") || "10"), 20)`. -/
def effectiveMaxResults (maxResultsParam : Option String) : Option Int :=
  jsMin (parseIntJs (jsOrDefault maxResultsParam "10")) 20

/-- A JavaScript thrown value: an `Error` instance with its `message` text,
or any non-`Error` value represented by its `String(...)` conversion. -/
inductive Thrown where
  | error (message : String)
  | nonError (stringValue : String)
deriving DecidableEq, Repr

/-- The session object returned by `getServerSession` (when not `null`).
Only `accessToken` influences control flow; the other fields are logged. -/
structure Session where
  accessToken : Option String := none
  refreshToken : Option String := none
  expiresAt : Option String := none
  userEmail : Option String := none
deriving Repr

/-- An entry of `messagesResponse.messages`: only `msg.id` is consumed. -/
structure MessageRef where
  id : String
deriving DecidableEq, Repr

/-- Result of `fetchGmailMessages`: the `messages` array may be absent
(`!messagesResponse.messages`) or empty. -/
structure MessagesResponse where
  messages : Option (List MessageRef) := none
deriving Repr

/-- The JSON body of a `NextResponse.json` call in the route, as a record of
optional fields (the wall-clock `timestamp` string is omitted). -/
structure Body (α : Type) where
  emails : Option (List α) := none
  message : Option String := none
  totalFetched : Option Nat := none
  error : Option String := none
  code : Option String := none
  details : Option String := none
  suggestion : Option String := none
  troubleshooting : Option String := none
deriving Repr

/-- A `NextResponse.json(body, { status })` value; the default status of
`NextResponse.json(body)` is 200. -/
structure Response (α : Type) where
  status : Nat
  body : Body α
deriving Repr

/-- Response for `if (!session)`: lines 15-18 of the route. -/
def noSessionResponse (α : Type) : Response α :=
  { status := 401, body := { error := some "Not authenticated" } }

/-- Response for `if (!session.accessToken)`: lines 20-23 of the route
(`undefined` and the empty string are both falsy). -/
def missingTokenResponse (α : Type) : Response α :=
  { status := 401,
    body := { error := some "No access token available. Please sign in again." } }

/-- Response for an empty or absent message list: lines 52-60 of the route. -/
def emptyInboxResponse (α : Type) : Response α :=
  { status := 200,
    body := { emails := some [],
              message := some "No emails found in your inbox.",
              totalFetched := some 0 } }

/-- The catch-block classification of a thrown value (lines 94-191 of the
route): for an `Error`, substring checks on its message text in order
401, 403, 429, 400, then `"500" || "5"`; anything unmatched, and every
non-`Error` value, falls through to `UNKNOWN_ERROR` with status 500. -/
def classifyError (α : Type) (e : Thrown) : Response α :=
  match e with
  | Thrown.error msg =>
    if strIncludes msg "401" then
      { status := 401,
        body := { error := some "Gmail access token expired. Please sign out and sign in again.",
                  code := some "TOKEN_EXPIRED",
                  details := some "Your authentication token is no longer valid." } }
    else if strIncludes msg "403" then
      { status := 403,
        body := { error := some "Gmail API access denied. Make sure you granted permission to read your emails.",
                  code := some "PERMISSION_DENIED",
                  details := some "The access token doesn't have Gmail permission. Please sign out and sign in again, then allow Gmail access.",
                  suggestion := some "Check that you clicked 'Allow' for Gmail permissions during login.",
                  troubleshooting := some "1. Visit https://myaccount.google.com/permissions 2. Find MailGuardian 3. Click Remove Access 4. Sign in again" } }
    else if strIncludes msg "429" then
      { status := 429,
        body := { error := some "Gmail API rate limit exceeded. Please try again in a few minutes.",
                  code := some "RATE_LIMITED" } }
    else if strIncludes msg "400" then
      { status := 400,
        body := { error := some "Invalid request to Gmail API.",
                  code := some "BAD_REQUEST",
                  details := some msg } }
    else if strIncludes msg "500" || strIncludes msg "5" then
      { status := 503,
        body := { error := some "Gmail API server error. Please try again in a few minutes.",
                  code := some "SERVER_ERROR" } }
    else
      { status := 500,
        body := { error := some "Failed to fetch emails from Gmail API",
                  code := some "UNKNOWN_ERROR",
                  details := some msg } }
  | Thrown.nonError s =>
    { status := 500,
      body := { error := some "Failed to fetch emails from Gmail API",
                code := some "UNKNOWN_ERROR",
                details := some s } }

/-- One branch of the per-message fan-out (lines 66-78):
`await getGmailMessage(session.accessToken!, msg.id)` then
`analyzeEmail(messageDetail)`, with the whole branch wrapped in try/catch
returning `null` on any throw. -/
def processMessage {μ α : Type} (accessToken : String)
    (getGmailMessage : String → String → Except Thrown μ)
    (analyzeEmail : μ → Except Thrown α)
    (msg : MessageRef) : Option α :=
  match getGmailMessage accessToken msg.id with
  | Except.error _ => none
  | Except.ok detail =>
    match analyzeEmail detail with
    | Except.error _ => none
    | Except.ok analyzed => some analyzed

/-- The route handler `GET` (lines 10-193).  Collaborators are parameters:
`session` is the `getServerSession` result, `fetchGmailMessages` takes the
access token and the effective `maxResults`, `getGmailMessage` takes the
token and a message id, `analyzeEmail` scores a message detail.  The
positional join of `Promise.all` followed by `filter(email => email !== null)`
is `List.map` then `List.reduceOption`. -/
def GET {μ α : Type} (session : Option Session) (maxResultsParam : Option String)
    (fetchGmailMessages : String → Option Int → Except Thrown MessagesResponse)
    (getGmailMessage : String → String → Except Thrown μ)
    (analyzeEmail : μ → Except Thrown α) : Response α :=
  match session with
  | none => noSessionResponse α
  | some s =>
    match s.accessToken with
    | none => missingTokenResponse α
    | some tok =>
      if tok = "" then missingTokenResponse α
      else
        match fetchGmailMessages tok (effectiveMaxResults maxResultsParam) with
        | Except.error e => classifyError α e
        | Except.ok messagesResponse =>
          match messagesResponse.messages with
          | none => emptyInboxResponse α
          | some [] => emptyInboxResponse α
          | some msgs =>
            let analyzedEmails :=
              (msgs.map (processMessage tok getGmailMessage analyzeEmail)).reduceOption
            { status := 200,
              body := { emails := some analyzedEmails,
                        totalFetched := some analyzedEmails.length } }

/-- One completion event of the concurrent fan-out: the branch for index `k`
finishes and writes its value `vals[k]` into its own slot of the shared
result array.  Out-of-range indices change nothing. -/
def completeSlot {α : Type} (vals : List (Option α)) (slots : List (Option α))
    (k : Nat) : List (Option α) :=
  match vals[k]? with
  | some v => slots.set k v
  | none => slots

/-- The fan-out of `Promise.all` under an explicit completion schedule
`sched` (the order in which branches happen to finish): slots start
unresolved and each completion writes only its own slot. -/
def runFanOut {α : Type} (vals : List (Option α)) (sched : List Nat) :
    List (Option α) :=
  sched.foldl (completeSlot vals) (List.replicate vals.length none)

/-- A session whose access token passes both truthiness checks; used to fix
the authentication context in claims that quantify over listing errors. -/
def okSession : Session :=
  { accessToken := some "valid-token" }

theorem foldl_completeSlot_length {α : Type} (vals : List (Option α)) (sched : List Nat)
    (s : List (Option α)) :
    (sched.foldl (completeSlot vals) s).length = s.length := by
  induction sched generalizing s with
  | nil => rfl
  | cons k rest ih =>
    rw [List.foldl_cons, ih]
    unfold completeSlot
    cases vals[k]? <;> simp

theorem foldl_completeSlot_not_mem {α : Type} (vals : List (Option α)) (sched : List Nat)
    (s : List (Option α)) (i : Nat) (hi : i ∉ sched) :
    (sched.foldl (completeSlot vals) s)[i]? = s[i]? := by
  induction sched generalizing s with
  | nil => rfl
  | cons k rest ih =>
    simp only [List.mem_cons, not_or] at hi
    rw [List.foldl_cons, ih _ hi.2]
    unfold completeSlot
    cases vals[k]? with
    | none => rfl
    | some v => exact List.getElem?_set_ne (fun h => hi.1 h.symm)

theorem foldl_completeSlot_mem {α : Type} (vals : List (Option α)) (sched : List Nat)
    (s : List (Option α)) (i : Nat) (hmem : i ∈ sched) (hlen : s.length = vals.length)
    (hlt : i < vals.length) :
    (sched.foldl (completeSlot vals) s)[i]? = vals[i]? := by
  induction sched generalizing s with
  | nil => cases hmem
  | cons k rest ih =>
    rw [List.foldl_cons]
    by_cases hr : i ∈ rest
    · apply ih _ hr
      rw [← hlen]
      unfold completeSlot
      cases vals[k]? <;> simp
    · have hik : i = k := by
        rcases List.mem_cons.mp hmem with h | h
        · exact h
        · exact absurd h hr
      subst hik
      rw [foldl_completeSlot_not_mem _ _ _ _ hr]
      have hv : vals[i]? = some vals[i] := List.getElem?_eq_getElem hlt
      simp only [completeSlot, hv]
      rw [List.getElem?_set_eq_of_lt _ (by rw [hlen]; exact hlt)]

/-- The result array of the fan-out does not depend on the completion order:
any schedule in which every branch completes yields the positional array of
per-branch values. -/
theorem runFanOut_covering {α : Type} (vals : List (Option α)) (sched : List Nat)
    (hcov : ∀ i, i < vals.length → i ∈ sched) :
    runFanOut vals sched = vals := by
  apply List.ext_getElem?
  intro i
  by_cases hlt : i < vals.length
  · exact foldl_completeSlot_mem vals sched _ i (hcov i hlt) (by simp) hlt
  · rw [List.getElem?_eq_none (l := vals) (by omega),
      List.getElem?_eq_none]
    rw [runFanOut, foldl_completeSlot_length, List.length_replicate]
    omega

theorem reduceOption_map_eq_filterMap {β α : Type} (op : β → Option α) (msgs : List β) :
    ((msgs.map op).reduceOption) = msgs.filterMap op := by
  induction msgs with
  | nil => rfl
  | cons m rest ih =>
    cases h : op m with
    | none =>
      rw [List.map_cons, h, List.reduceOption_cons_of_none, ih, List.filterMap_cons_none h]
    | some a =>
      rw [List.map_cons, h, List.reduceOption_cons_of_some, ih, List.filterMap_cons_some h]

/-- The surviving-result count: dropping the failed branches leaves exactly
the attempted count minus the failure count. -/
theorem reduceOption_map_length {β α : Type} (op : β → Option α) (msgs : List β) :
    ((msgs.map op).reduceOption).length
      = msgs.length - msgs.countP (fun m => (op m).isNone) := by
  induction msgs with
  | nil => rfl
  | cons m rest ih =>
    have hle : rest.countP (fun m => (op m).isNone) ≤ rest.length :=
      List.countP_le_length _
    cases h : op m with
    | none =>
      rw [List.map_cons, h, List.reduceOption_cons_of_none, ih, List.length_cons,
        List.countP_cons]
      simp only [h, Option.isNone_none, if_pos]
      omega
    | some a =>
      rw [List.map_cons, h, List.reduceOption_cons_of_some, List.length_cons, ih,
        List.length_cons, List.countP_cons]
      simp only [h, Option.isNone_some, Bool.false_eq_true, if_false]
      omega

/-- C8: for every request for which session resolution returns null, the
handler returns HTTP status 401 with a body containing an error field and no
code field. -/
theorem C8_no_session_401 {μ α : Type} (param : Option String)
    (fetch : String → Option Int → Except Thrown MessagesResponse)
    (getMsg : String → String → Except Thrown μ) (analyze : μ → Except Thrown α) :
    (GET none param fetch getMsg analyze).status = 401 ∧
    (GET none param fetch getMsg analyze).body.error = some "Not authenticated" ∧
    (GET none param fetch getMsg analyze).body.code = none :=
  ⟨rfl, rfl, rfl⟩

/-- C9: for every request with a session present but lacking a non-empty
access token (absent or empty string, both falsy), the handler returns HTTP
status 401 with no code field and an error message distinct from the
no-session case. -/
theorem C9_missing_token_401 {μ α : Type} (param : Option String)
    (fetch : String → Option Int → Except Thrown MessagesResponse)
    (getMsg : String → String → Except Thrown μ) (analyze : μ → Except Thrown α)
    (tokOpt : Option String) (h : tokOpt = none ∨ tokOpt = some "") :
    (GET (some { accessToken := tokOpt }) param fetch getMsg analyze).status = 401 ∧
    (GET (some { accessToken := tokOpt }) param fetch getMsg analyze).body.error
      = some "No access token available. Please sign in again." ∧
    (GET (some { accessToken := tokOpt }) param fetch getMsg analyze).body.code = none ∧
    (GET (some { accessToken := tokOpt }) param fetch getMsg analyze).body.error
      ≠ (GET none param fetch getMsg analyze).body.error := by
  rcases h with h | h <;> subst h <;>
    refine ⟨rfl, rfl, rfl, by simp [GET, missingTokenResponse, noSessionResponse]⟩

/-- C9 witness: a concrete session with an absent access token gets the 401
missing-token response. -/
theorem C9_missing_token_401_witness :
    (GET (some { accessToken := none })
        (none : Option String)
        (fun _ _ => Except.ok { messages := some [] })
        (fun _ _ => (Except.ok () : Except Thrown Unit))
        (fun _ => (Except.ok 0 : Except Thrown Nat))).status = 401 ∧
    (GET (some { accessToken := none })
        (none : Option String)
        (fun _ _ => Except.ok { messages := some [] })
        (fun _ _ => (Except.ok () : Except Thrown Unit))
        (fun _ => (Except.ok 0 : Except Thrown Nat))).body.error
      = some "No access token available. Please sign in again." ∧
    (GET (some { accessToken := none })
        (none : Option String)
        (fun _ _ => Except.ok { messages := some [] })
        (fun _ _ => (Except.ok () : Except Thrown Unit))
        (fun _ => (Except.ok 0 : Except Thrown Nat))).body.code = none ∧
    (GET (some { accessToken := none })
        (none : Option String)
        (fun _ _ => Except.ok { messages := some [] })
        (fun _ _ => (Except.ok () : Except Thrown Unit))
        (fun _ => (Except.ok 0 : Except Thrown Nat))).body.error
      ≠ (GET none (none : Option String)
          (fun _ _ => Except.ok { messages := some [] })
          (fun _ _ => (Except.ok () : Except Thrown Unit))
          (fun _ => (Except.ok 0 : Except Thrown Nat))).body.error :=
  C9_missing_token_401 none (fun _ _ => Except.ok { messages := some [] })
    (fun _ _ => (Except.ok () : Except Thrown Unit))
    (fun _ => (Except.ok 0 : Except Thrown Nat)) none (Or.inl rfl)

/-- C10: for every thrown value that is not an Error instance, the substring
classification is skipped and the handler returns code UNKNOWN_ERROR with
HTTP status 500 and details equal to the String conversion of the value. -/
theorem C10_non_error_unknown {μ α : Type} (param : Option String)
    (getMsg : String → String → Except Thrown μ) (analyze : μ → Except Thrown α)
    (s : String) :
    (GET (some okSession) param (fun _ _ => Except.error (Thrown.nonError s))
        getMsg analyze).status = 500 ∧
    (GET (some okSession) param (fun _ _ => Except.error (Thrown.nonError s))
        getMsg analyze).body.code = some "UNKNOWN_ERROR" ∧
    (GET (some okSession) param (fun _ _ => Except.error (Thrown.nonError s))
        getMsg analyze).body.details = some s := by
  refine ⟨?_, ?_, ?_⟩ <;> simp [GET, okSession, classifyError]

/-- C6: when the listing call returns an empty or absent message list, the
handler succeeds with HTTP status 200, an empty emails array, totalFetched 0
and an explanatory message field. -/
theorem C6_empty_inbox_200 {μ α : Type} (tok : String) (htok : tok ≠ "")
    (param : Option String)
    (fetch : String → Option Int → Except Thrown MessagesResponse)
    (getMsg : String → String → Except Thrown μ) (analyze : μ → Except Thrown α)
    (resp : MessagesResponse)
    (hfetch : fetch tok (effectiveMaxResults param) = Except.ok resp)
    (hempty : resp.messages = none ∨ resp.messages = some []) :
    (GET (some { accessToken := some tok }) param fetch getMsg analyze).status = 200 ∧
    (GET (some { accessToken := some tok }) param fetch getMsg analyze).body.emails
      = some ([] : List α) ∧
    (GET (some { accessToken := some tok }) param fetch getMsg analyze).body.totalFetched
      = some 0 ∧
    (GET (some { accessToken := some tok }) param fetch getMsg analyze).body.message
      = some "No emails found in your inbox." := by
  rcases hempty with h | h <;>
    simp [GET, htok, hfetch, h, emptyInboxResponse]

/-- C6 witness: a concrete listing with an absent messages array yields the
empty 200 envelope. -/
theorem C6_empty_inbox_200_witness :
    (GET (some { accessToken := some "tok" }) (none : Option String)
        (fun _ _ => Except.ok { messages := none })
        (fun _ _ => (Except.ok () : Except Thrown Unit))
        (fun _ => (Except.ok 0 : Except Thrown Nat))).status = 200 ∧
    (GET (some { accessToken := some "tok" }) (none : Option String)
        (fun _ _ => Except.ok { messages := none })
        (fun _ _ => (Except.ok () : Except Thrown Unit))
        (fun _ => (Except.ok 0 : Except Thrown Nat))).body.emails = some ([] : List Nat) ∧
    (GET (some { accessToken := some "tok" }) (none : Option String)
        (fun _ _ => Except.ok { messages := none })
        (fun _ _ => (Except.ok () : Except Thrown Unit))
        (fun _ => (Except.ok 0 : Except Thrown Nat))).body.totalFetched = some 0 ∧
    (GET (some { accessToken := some "tok" }) (none : Option String)
        (fun _ _ => Except.ok { messages := none })
        (fun _ _ => (Except.ok () : Except Thrown Unit))
        (fun _ => (Except.ok 0 : Except Thrown Nat))).body.message
      = some "No emails found in your inbox." :=
  C6_empty_inbox_200 "tok" (by decide) none
    (fun _ _ => Except.ok { messages := none })
    (fun _ _ => (Except.ok () : Except Thrown Unit))
    (fun _ => (Except.ok 0 : Except Thrown Nat))
    { messages := none } rfl (Or.inl rfl)

/-- C2 counterexample: requesting `maxResults=0` does not yield the default
of 10; the string "0" is truthy in JS, so the fallback never applies and the
effective limit is 0. -/
theorem C2_counterexample_zero :
    effectiveMaxResults (some "0") = some 0 ∧
    effectiveMaxResults (some "0") ≠ some 10 := by
  decide

/-- C2 amended: the effective maxResults limit is clamped to an inclusive
maximum of 20; requesting 1000 yields 20; omitting the parameter yields the
default of 10; requesting 0 yields 0 (not the default). -/
theorem C2_amended_clamp :
    (∀ p n, effectiveMaxResults p = some n → n ≤ 20) ∧
    effectiveMaxResults (some "1000") = some 20 ∧
    effectiveMaxResults none = some 10 ∧
    effectiveMaxResults (some "0") = some 0 := by
  refine ⟨?_, by decide, by decide, by decide⟩
  intro p n h
  unfold effectiveMaxResults jsMin at h
  cases hx : parseIntJs (jsOrDefault p "10") with
  | none => rw [hx] at h; cases h
  | some x =>
    rw [hx] at h
    simp only [Option.map_some'] at h
    cases h
    exact min_le_right x 20

/-- C2 amended witness: the clamp bound applied at the concrete parameter
string "7". -/
theorem C2_amended_clamp_witness :
    effectiveMaxResults (some "7") = some 7 ∧ (7 : Int) ≤ 20 :=
  ⟨by decide, C2_amended_clamp.1 (some "7") 7 (by decide)⟩

/-- C4: when the listing step throws an Error whose message contains both
"401" and "403", the 401 branch wins: HTTP status 401 and code
TOKEN_EXPIRED. -/
theorem C4_both_401_403 {μ α : Type} (param : Option String)
    (getMsg : String → String → Except Thrown μ) (analyze : μ → Except Thrown α)
    (msg : String)
    (h401 : strIncludes msg "401" = true) (h403 : strIncludes msg "403" = true) :
    (GET (some okSession) param (fun _ _ => Except.error (Thrown.error msg))
        getMsg analyze).status = 401 ∧
    (GET (some okSession) param (fun _ _ => Except.error (Thrown.error msg))
        getMsg analyze).body.code = some "TOKEN_EXPIRED" := by
  constructor <;> simp [GET, okSession, classifyError, h401]

/-- C4 witness: the concrete message text mentioning both status codes gets
the TOKEN_EXPIRED response. -/
theorem C4_both_401_403_witness :
    strIncludes "got 401 then 403" "401" = true ∧
    ((GET (some okSession) (none : Option String)
        (fun _ _ => Except.error (Thrown.error "got 401 then 403"))
        (fun _ _ => (Except.ok () : Except Thrown Unit))
        (fun _ => (Except.ok 0 : Except Thrown Nat))).status = 401 ∧
      (GET (some okSession) (none : Option String)
        (fun _ _ => Except.error (Thrown.error "got 401 then 403"))
        (fun _ _ => (Except.ok () : Except Thrown Unit))
        (fun _ => (Except.ok 0 : Except Thrown Nat))).body.code = some "TOKEN_EXPIRED") :=
  ⟨by decide,
    C4_both_401_403 none (fun _ _ => (Except.ok () : Except Thrown Unit))
      (fun _ => (Except.ok 0 : Except Thrown Nat)) "got 401 then 403"
      (by decide) (by decide)⟩

/-- C7: when the listing step throws an Error whose message contains "403"
and not "401", the response has HTTP status 403 and code
PERMISSION_DENIED. -/
theorem C7_forbidden_403 {μ α : Type} (param : Option String)
    (getMsg : String → String → Except Thrown μ) (analyze : μ → Except Thrown α)
    (msg : String)
    (h403 : strIncludes msg "403" = true) (h401 : strIncludes msg "401" = false) :
    (GET (some okSession) param (fun _ _ => Except.error (Thrown.error msg))
        getMsg analyze).status = 403 ∧
    (GET (some okSession) param (fun _ _ => Except.error (Thrown.error msg))
        getMsg analyze).body.code = some "PERMISSION_DENIED" := by
  constructor <;> simp [GET, okSession, classifyError, h401, h403]

/-- C7 witness: a concrete "403 Forbidden" listing error yields the
PERMISSION_DENIED response. -/
theorem C7_forbidden_403_witness :
    strIncludes "403 Forbidden" "403" = true ∧
    ((GET (some okSession) (none : Option String)
        (fun _ _ => Except.error (Thrown.error "403 Forbidden"))
        (fun _ _ => (Except.ok () : Except Thrown Unit))
        (fun _ => (Except.ok 0 : Except Thrown Nat))).status = 403 ∧
      (GET (some okSession) (none : Option String)
        (fun _ _ => Except.error (Thrown.error "403 Forbidden"))
        (fun _ _ => (Except.ok () : Except Thrown Unit))
        (fun _ => (Except.ok 0 : Except Thrown Nat))).body.code = some "PERMISSION_DENIED") :=
  ⟨by decide,
    C7_forbidden_403 none (fun _ _ => (Except.ok () : Except Thrown Unit))
      (fun _ => (Except.ok 0 : Except Thrown Nat)) "403 Forbidden"
      (by decide) (by decide)⟩

/-- C3: when the listing step throws an Error whose message contains the
bare digit "5" and none of "401", "403", "429", "400", the final
classification row fires: code SERVER_ERROR with HTTP status 503. -/
theorem C3_bare_five_server_error {μ α : Type} (param : Option String)
    (getMsg : String → String → Except Thrown μ) (analyze : μ → Except Thrown α)
    (msg : String)
    (h5 : strIncludes msg "5" = true)
    (h401 : strIncludes msg "401" = false) (h403 : strIncludes msg "403" = false)
    (h429 : strIncludes msg "429" = false) (h400 : strIncludes msg "400" = false) :
    (GET (some okSession) param (fun _ _ => Except.error (Thrown.error msg))
        getMsg analyze).status = 503 ∧
    (GET (some okSession) param (fun _ _ => Except.error (Thrown.error msg))
        getMsg analyze).body.code = some "SERVER_ERROR" := by
  constructor <;> simp [GET, okSession, classifyError, h5, h401, h403, h429, h400]

/-- C3 witness: an error text whose only digit match is the "5" in "25"
(no 401/403/429/400 and not even "500") still maps to SERVER_ERROR 503. -/
theorem C3_bare_five_server_error_witness :
    strIncludes "retry in 25 minutes" "5" = true ∧
    ((GET (some okSession) (none : Option String)
        (fun _ _ => Except.error (Thrown.error "retry in 25 minutes"))
        (fun _ _ => (Except.ok () : Except Thrown Unit))
        (fun _ => (Except.ok 0 : Except Thrown Nat))).status = 503 ∧
      (GET (some okSession) (none : Option String)
        (fun _ _ => Except.error (Thrown.error "retry in 25 minutes"))
        (fun _ _ => (Except.ok () : Except Thrown Unit))
        (fun _ => (Except.ok 0 : Except Thrown Nat))).body.code = some "SERVER_ERROR") :=
  ⟨by decide,
    C3_bare_five_server_error none (fun _ _ => (Except.ok () : Except Thrown Unit))
      (fun _ => (Except.ok 0 : Except Thrown Nat)) "retry in 25 minutes"
      (by decide) (by decide) (by decide) (by decide) (by decide)⟩

/-- C1: a listing of N message references of which exactly K fail their
fetch-and-analyze branch yields HTTP status 200 with emails.length = N - K
and totalFetched = N - K; per-message failure never fails the request. -/
theorem C1_partial_failure_drop {μ α : Type} (tok : String) (htok : tok ≠ "")
    (param : Option String) (msgs : List MessageRef)
    (fetch : String → Option Int → Except Thrown MessagesResponse)
    (getMsg : String → String → Except Thrown μ) (analyze : μ → Except Thrown α)
    (hfetch : fetch tok (effectiveMaxResults param) = Except.ok { messages := some msgs }) :
    (GET (some { accessToken := some tok }) param fetch getMsg analyze).status = 200 ∧
    ∃ es : List α,
      (GET (some { accessToken := some tok }) param fetch getMsg analyze).body.emails
        = some es ∧
      es.length = msgs.length
        - msgs.countP (fun m => (processMessage tok getMsg analyze m).isNone) ∧
      (GET (some { accessToken := some tok }) param fetch getMsg analyze).body.totalFetched
        = some (msgs.length
            - msgs.countP (fun m => (processMessage tok getMsg analyze m).isNone)) := by
  cases msgs with
  | nil =>
    refine ⟨?_, [], ?_, ?_, ?_⟩ <;> simp [GET, htok, hfetch, emptyInboxResponse]
  | cons m rest =>
    refine ⟨?_,
      ((m :: rest).map (processMessage tok getMsg analyze)).reduceOption, ?_, ?_, ?_⟩
    · simp [GET, htok, hfetch]
    · simp [GET, htok, hfetch]
    · exact reduceOption_map_length _ _
    · have hlen := reduceOption_map_length (processMessage tok getMsg analyze) (m :: rest)
      simp only [List.map_cons, List.length_cons] at hlen
      simp [GET, htok, hfetch, hlen]

/-- C1 witness ingredients: three listed messages of which exactly the one
with id "b" fails its per-message fetch. -/
def wMsgs : List MessageRef := [{ id := "a" }, { id := "b" }, { id := "c" }]

/-- Listing collaborator used by concrete fan-out witnesses. -/
def wFetch : String → Option Int → Except Thrown MessagesResponse :=
  fun _ _ => Except.ok { messages := some wMsgs }

/-- Per-message fetch collaborator that throws exactly on id "b". -/
def wGetMsg : String → String → Except Thrown String :=
  fun _ id => if id = "b" then Except.error (Thrown.error "boom") else Except.ok id

/-- Analyzer collaborator scoring a detail by its length. -/
def wAnalyze : String → Except Thrown Nat :=
  fun d => Except.ok d.length

/-- C1 witness: with three listed messages and one failing branch the
handler returns 200 with two surviving emails and totalFetched 2. -/
theorem C1_partial_failure_drop_witness :
    (GET (some { accessToken := some "tok" }) none wFetch wGetMsg wAnalyze).status = 200 ∧
    ∃ es : List Nat,
      (GET (some { accessToken := some "tok" }) none wFetch wGetMsg wAnalyze).body.emails
        = some es ∧
      es.length = wMsgs.length
        - wMsgs.countP (fun m => (processMessage "tok" wGetMsg wAnalyze m).isNone) ∧
      (GET (some { accessToken := some "tok" }) none wFetch wGetMsg wAnalyze).body.totalFetched
        = some (wMsgs.length
            - wMsgs.countP (fun m => (processMessage "tok" wGetMsg wAnalyze m).isNone)) :=
  C1_partial_failure_drop "tok" (by decide) none wMsgs wFetch wGetMsg wAnalyze rfl

/-- C5: under any completion schedule in which every branch finishes, the
emails array of the handler equals the filter of the fan-out slots in
listing order: surviving results appear in listing order, never in
completion order. -/
theorem C5_listing_order {μ α : Type} (tok : String) (htok : tok ≠ "")
    (param : Option String) (msgs : List MessageRef)
    (fetch : String → Option Int → Except Thrown MessagesResponse)
    (getMsg : String → String → Except Thrown μ) (analyze : μ → Except Thrown α)
    (sched : List Nat)
    (hfetch : fetch tok (effectiveMaxResults param) = Except.ok { messages := some msgs })
    (hcov : ∀ i, i < msgs.length → i ∈ sched) :
    (GET (some { accessToken := some tok }) param fetch getMsg analyze).body.emails
      = some ((runFanOut (msgs.map (processMessage tok getMsg analyze)) sched).reduceOption) ∧
    (runFanOut (msgs.map (processMessage tok getMsg analyze)) sched).reduceOption
      = msgs.filterMap (processMessage tok getMsg analyze) := by
  have hrf : runFanOut (msgs.map (processMessage tok getMsg analyze)) sched
      = msgs.map (processMessage tok getMsg analyze) :=
    runFanOut_covering _ _ (by simpa using hcov)
  constructor
  · rw [hrf]
    cases msgs with
    | nil => simp [GET, htok, hfetch, emptyInboxResponse]
    | cons m rest => simp [GET, htok, hfetch]
  · rw [hrf, reduceOption_map_eq_filterMap]

/-- C5 witness: a schedule that completes the branches in the order 2, 0, 1
still produces the emails array in listing order. -/
theorem C5_listing_order_witness :
    (GET (some { accessToken := some "tok" }) none wFetch wGetMsg wAnalyze).body.emails
      = some ((runFanOut (wMsgs.map (processMessage "tok" wGetMsg wAnalyze))
          [2, 0, 1]).reduceOption) ∧
    (runFanOut (wMsgs.map (processMessage "tok" wGetMsg wAnalyze)) [2, 0, 1]).reduceOption
      = wMsgs.filterMap (processMessage "tok" wGetMsg wAnalyze) :=
  C5_listing_order "tok" (by decide) none wMsgs wFetch wGetMsg wAnalyze [2, 0, 1] rfl
    (by decide)
